import Mathlib

/-!
Formal model of the core logic of the `backend-front` telecommunications
licensing backend: webhook delivery and retry (api_integration/services.py),
title fees and lifecycle (titres/models.py, titres/views.py,
titres/signals.py), request history (demandes/views.py, demandes/signals.py),
dossier numbering (demandes/models.py) and notification dispatch
(notifications/services.py). Each Python function used by a claim is
translated into an executable Lean definition; theorems below settle the
frozen claims against those definitions.

Dates are modelled as (year, month, day) triples ordered lexicographically;
timestamps for the webhook engine as natural numbers of minutes. Database
tables are lists of records, and HTTP calls are parameters describing the
outcome the network produced.
-/

set_option maxRecDepth 10000

namespace BackendFront

/-- Lexicographic strict order on character lists by code point, the order a
database applies to the ASCII dossier/title numbers compared here. -/
def lexLt : List Char → List Char → Bool
  | [], [] => false
  | [], _ :: _ => true
  | _ :: _, [] => false
  | a :: as, b :: bs =>
    if a.toNat < b.toNat then true
    else if b.toNat < a.toNat then false
    else lexLt as bs

/-- Strict order on strings, via `lexLt` on their characters. -/
def strLt (a b : String) : Bool := lexLt a.data b.data

/-- Test that `p` is a prefix of `s`, modelling Python `str.startswith` and
the Django lookup `numero__startswith`. -/
def listStartsWith : List Char → List Char → Bool
  | [], _ => true
  | _ :: _, [] => false
  | a :: as, b :: bs => a = b && listStartsWith as bs

/-- String version of `listStartsWith`: `strStartsWith p s` means `s` starts
with `p`. -/
def strStartsWith (p s : String) : Bool := listStartsWith p.data s.data

/-- Maximum of a list of strings under `strLt`, `none` on the empty list;
models `queryset.order_by(desc).first()` on a string column. -/
def maxStr : List String → Option String
  | [] => none
  | s :: ss =>
    match maxStr ss with
    | none => some s
    | some m => some (if strLt m s then s else m)

/-- Split a character list on the dash character, modelling Python
`s.split(sep)` for a one-character separator. -/
def splitDashAux : List Char → List Char → List String
  | [], acc => [String.mk acc.reverse]
  | c :: cs, acc =>
    if c = '-' then String.mk acc.reverse :: splitDashAux cs []
    else splitDashAux cs (c :: acc)

/-- Split a string on dashes. -/
def splitDash (s : String) : List String := splitDashAux s.data []

/-- Last element of a list, defaulting to the empty string: models Python
`parts[-1]` after a split (a split is never empty). -/
def lastPart : List String → String
  | [] => ""
  | [s] => s
  | _ :: s :: ss => lastPart (s :: ss)

/-- Character for a single decimal digit. -/
def digitCh (d : Nat) : Char := Char.ofNat (48 + d)

/-- Fuel-driven decimal digit expansion; `fuel` bounds the recursion depth so
the definition stays structural and kernel-reducible. -/
def natDigitsAux : Nat → Nat → List Char
  | 0, _ => []
  | fuel + 1, n =>
    if n < 10 then [digitCh n]
    else natDigitsAux fuel (n / 10) ++ [digitCh (n % 10)]

/-- Decimal digit characters of a natural number, most significant first,
modelling Python `str(n)` for a nonnegative integer. -/
def natDigits (n : Nat) : List Char := natDigitsAux (n + 1) n

/-- Decimal string of a natural number. -/
def natToStr (n : Nat) : String := String.mk (natDigits n)

/-- Zero-pad decimal formatting to width four, modelling the Python format
specifier `{n:04d}` for a nonnegative integer. -/
def pad4 (n : Nat) : String :=
  let ds := natDigits n
  String.mk (List.replicate (4 - ds.length) '0' ++ ds)

/-- Parse a nonempty all-digit character list as a natural number; `none`
models Python `int(s)` raising `ValueError`. -/
def parseNatAux : List Char → Nat → Option Nat
  | [], acc => some acc
  | c :: cs, acc =>
    if 48 ≤ c.toNat ∧ c.toNat ≤ 57 then parseNatAux cs (acc * 10 + (c.toNat - 48))
    else none

/-- Parse a string of decimal digits, modelling Python `int(s)` on the digit
strings produced by the numbering scheme. -/
def parseNat (s : String) : Option Nat :=
  match s.data with
  | [] => none
  | cs => parseNatAux cs 0

/-- Decimal string of an integer, modelling Python `str` on `int`. -/
def intToStr (n : Int) : String :=
  if n < 0 then "-" ++ natToStr n.natAbs else natToStr n.natAbs

-- JSON values as produced by the Python layer: the payload dictionaries and
-- the webhook envelope. Object fields keep insertion order, as Python dicts
-- do. Arrays and objects are their own inductives so that serialization is
-- plain mutual structural recursion.
mutual

/-- JSON value. -/
inductive Json where
  | null
  | bool (b : Bool)
  | num (n : Int)
  | str (s : String)
  | arr (xs : JsonArr)
  | obj (kvs : JsonObj)
deriving DecidableEq

/-- JSON array contents. -/
inductive JsonArr where
  | nil
  | cons (hd : Json) (tl : JsonArr)
deriving DecidableEq

/-- JSON object contents: ordered key-value pairs. -/
inductive JsonObj where
  | nil
  | cons (key : String) (val : Json) (tl : JsonObj)
deriving DecidableEq

end

/-- Lowercase hexadecimal digit character. -/
def hexCh (d : Nat) : Char := if d < 10 then digitCh d else Char.ofNat (87 + d)

/-- Four lowercase hex digits, as in the `\uXXXX` escapes of `json.dumps`. -/
def hex4 (n : Nat) : List Char :=
  [hexCh (n / 4096 % 16), hexCh (n / 256 % 16), hexCh (n / 16 % 16), hexCh (n % 16)]

/-- Escape one character the way `json.dumps` does with its default
`ensure_ascii=True`: the two-character escapes for backslash, quote and the
common control characters, `\uXXXX` for other characters outside `0x20..0x7e`,
surrogate pairs above `0xffff`. -/
def escapeChar (c : Char) : List Char :=
  let n := c.toNat
  if c = '\\' then ['\\', '\\']
  else if c = '"' then ['\\', '"']
  else if n = 8 then ['\\', 'b']
  else if n = 12 then ['\\', 'f']
  else if n = 10 then ['\\', 'n']
  else if n = 13 then ['\\', 'r']
  else if n = 9 then ['\\', 't']
  else if n < 32 ∨ n > 126 then
    if n ≤ 65535 then '\\' :: 'u' :: hex4 n
    else
      let m := n - 65536
      ('\\' :: 'u' :: hex4 (55296 + m / 1024)) ++ ('\\' :: 'u' :: hex4 (56320 + m % 1024))
  else [c]

/-- JSON string literal for `s`: quotes around the escaped characters. -/
def jsonStr (s : String) : String :=
  String.mk ('"' :: s.data.flatMap escapeChar ++ ['"'])

-- Serialization of JSON with the given item and key separators, modelling
-- Python json.dumps(value, separators=(itemSep, kvSep)). The repository
-- serializes the same envelope twice: once with the compact separators
-- for the signature, and once with the default separators inside
-- requests.post(json=...).
mutual

/-- Serialize one JSON value. -/
def dumps (itemSep kvSep : String) : Json → String
  | .null => "null"
  | .bool true => "true"
  | .bool false => "false"
  | .num n => intToStr n
  | .str s => jsonStr s
  | .arr xs => "[" ++ dumpsArr itemSep kvSep true xs ++ "]"
  | .obj kvs => "\x7b" ++ dumpsObj itemSep kvSep true kvs ++ "\x7d"

/-- Serialize array elements, separated by the item separator. -/
def dumpsArr (itemSep kvSep : String) (first : Bool) : JsonArr → String
  | .nil => ""
  | .cons x xs =>
    (if first then "" else itemSep) ++ dumps itemSep kvSep x ++ dumpsArr itemSep kvSep false xs

/-- Serialize object entries, separated by the item separator. -/
def dumpsObj (itemSep kvSep : String) (first : Bool) : JsonObj → String
  | .nil => ""
  | .cons k v kvs =>
    (if first then "" else itemSep) ++ jsonStr k ++ kvSep ++ dumps itemSep kvSep v ++
      dumpsObj itemSep kvSep false kvs

end

/-- UTF-8 encoding of one character. -/
def utf8Char (c : Char) : List Nat :=
  let n := c.toNat
  if n < 128 then [n]
  else if n < 2048 then [192 + n / 64, 128 + n % 64]
  else if n < 65536 then [224 + n / 4096, 128 + n / 64 % 64, 128 + n % 64]
  else [240 + n / 262144, 128 + n / 4096 % 64, 128 + n / 64 % 64, 128 + n % 64]

/-- UTF-8 bytes of a string, modelling Python `s.encode("utf-8")`. -/
def utf8 (s : String) : List Nat := s.data.flatMap utf8Char

/-- Word size modulus for SHA-256 arithmetic. -/
def w32 : Nat := 4294967296

/-- Rotate a 32-bit word right by `n` bits. -/
def rotr (n x : Nat) : Nat := ((x >>> n) ||| (x <<< (32 - n))) % w32

/-- SHA-256 round constants (FIPS 180-4), written in decimal. -/
def shaK : List Nat :=
  [1116352408, 1899447441, 3049323471, 3921009573, 961987163,
   1508970993, 2453635748, 2870763221, 3624381080, 310598401,
   607225278, 1426881987, 1925078388, 2162078206, 2614888103,
   3248222580, 3835390401, 4022224774, 264347078, 604807628,
   770255983, 1249150122, 1555081692, 1996064986, 2554220882,
   2821834349, 2952996808, 3210313671, 3336571891, 3584528711,
   113926993, 338241895, 666307205, 773529912, 1294757372,
   1396182291, 1695183700, 1986661051, 2177026350, 2456956037,
   2730485921, 2820302411, 3259730800, 3345764771, 3516065817,
   3600352804, 4094571909, 275423344, 430227734, 506948616,
   659060556, 883997877, 958139571, 1322822218, 1537002063,
   1747873779, 1955562222, 2024104815, 2227730452, 2361852424,
   2428436474, 2756734187, 3204031479, 3329325298]

/-- SHA-256 initial hash state (FIPS 180-4), written in decimal. -/
def shaH0 : List Nat :=
  [1779033703, 3144134277, 1013904242, 2773480762,
   1359893119, 2600822924, 528734635, 1541459225]

/-- Big-endian bytes of a 64-bit value. -/
def be64 (n : Nat) : List Nat :=
  [n >>> 56 % 256, n >>> 48 % 256, n >>> 40 % 256, n >>> 32 % 256,
   n >>> 24 % 256, n >>> 16 % 256, n >>> 8 % 256, n % 256]

/-- Big-endian bytes of a 32-bit word. -/
def be32 (n : Nat) : List Nat := [n >>> 24 % 256, n >>> 16 % 256, n >>> 8 % 256, n % 256]

/-- SHA-256 message padding: a 0x80 byte, zeros to 56 mod 64, then the
message bit length as a 64-bit big-endian value. -/
def shaPad (msg : List Nat) : List Nat :=
  let len := msg.length
  let zeros := (64 + 56 - (len + 1) % 64) % 64
  msg ++ [128] ++ List.replicate zeros 0 ++ be64 (8 * len)

/-- Split a byte list into 64-byte blocks; the first argument is fuel that
exceeds the number of blocks. -/
def chunks64 : Nat → List Nat → List (List Nat)
  | 0, _ => []
  | _ + 1, [] => []
  | fuel + 1, bs => bs.take 64 :: chunks64 fuel (bs.drop 64)

/-- Group bytes four at a time into big-endian 32-bit words. -/
def bytesToWords : List Nat → List Nat
  | b0 :: b1 :: b2 :: b3 :: rest => (b0 <<< 24 ||| b1 <<< 16 ||| b2 <<< 8 ||| b3) :: bytesToWords rest
  | _ => []

/-- Extend the 16 message words to 64 schedule words; the first argument is
the number of words still to append (48). -/
def shaExtend : Nat → List Nat → List Nat
  | 0, ws => ws
  | fuel + 1, ws =>
    let i := ws.length
    let s0 := rotr 7 (ws.getD (i - 15) 0) ^^^ rotr 18 (ws.getD (i - 15) 0) ^^^ (ws.getD (i - 15) 0 >>> 3)
    let s1 := rotr 17 (ws.getD (i - 2) 0) ^^^ rotr 19 (ws.getD (i - 2) 0) ^^^ (ws.getD (i - 2) 0 >>> 10)
    shaExtend fuel (ws ++ [(ws.getD (i - 16) 0 + s0 + ws.getD (i - 7) 0 + s1) % w32])

/-- One SHA-256 compression round on the eight-word working state. -/
def shaRound (st : List Nat) (kw : Nat × Nat) : List Nat :=
  match st with
  | [a, b, c, d, e, f, g, h] =>
    let s1 := rotr 6 e ^^^ rotr 11 e ^^^ rotr 25 e
    let ch := (e &&& f) ^^^ ((e ^^^ 4294967295) &&& g)
    let t1 := (h + s1 + ch + kw.1 + kw.2) % w32
    let s0 := rotr 2 a ^^^ rotr 13 a ^^^ rotr 22 a
    let mj := (a &&& b) ^^^ (a &&& c) ^^^ (b &&& c)
    let t2 := (s0 + mj) % w32
    [(t1 + t2) % w32, a, b, c, (d + t1) % w32, e, f, g]
  | other => other

/-- Compress one 64-byte block into the running hash state. -/
def shaCompress (hs : List Nat) (block : List Nat) : List Nat :=
  let ws := shaExtend 48 (bytesToWords block)
  let st := (shaK.zip ws).foldl shaRound hs
  (hs.zip st).map (fun p => (p.1 + p.2) % w32)

/-- SHA-256 digest (32 bytes) of a byte list, modelling `hashlib.sha256`. -/
def sha256 (msg : List Nat) : List Nat :=
  let padded := shaPad msg
  ((chunks64 (padded.length / 64 + 1) padded).foldl shaCompress shaH0).flatMap be32

/-- HMAC-SHA256 digest of `msg` under `key`, modelling
`hmac.new(key, msg, hashlib.sha256).digest()` with the 64-byte block size. -/
def hmacSha256 (key msg : List Nat) : List Nat :=
  let k0 := if key.length > 64 then sha256 key else key
  let kb := k0 ++ List.replicate (64 - k0.length) 0
  let inner := sha256 (kb.map (fun b => b ^^^ 0x36) ++ msg)
  sha256 (kb.map (fun b => b ^^^ 0x5c) ++ inner)

/-- Lowercase hex encoding of a byte list, modelling `.hexdigest()`. -/
def hexBytes (bs : List Nat) : String :=
  String.mk (bs.flatMap (fun b => [hexCh (b / 16), hexCh (b % 16)]))

/-- Hex HMAC-SHA256 of a payload string under a secret string, the exact body
of `WebhookService._generate_signature`. -/
def generateSignature (payload secret : String) : String :=
  hexBytes (hmacSha256 (utf8 secret) (utf8 payload))

/-- Webhook subscriber configuration (api_integration/models.py `Webhook`):
destination, subscribed events, optional signing secret, custom headers and
running success/failure bookkeeping. -/
structure Webhook where
  url : String
  events : List String
  secret : String
  headers : List (String × String)
  successCount : Nat
  failureCount : Nat
  lastSuccess : Option Nat
  lastFailure : Option Nat
  lastError : String
deriving DecidableEq

/-- One delivery-tracking record (api_integration/models.py
`WebhookDelivery`). Timestamps are minutes; `none` models SQL NULL. -/
structure WebhookDelivery where
  event : String
  payload : Json
  status : String
  httpStatus : Option Nat
  responseBody : String
  errorMessage : String
  attempts : Nat
  maxAttempts : Nat
  nextRetry : Option Nat
  deliveredAt : Option Nat
deriving DecidableEq

/-- Record as created by `WebhookDelivery.objects.create(webhook, event,
payload)`: every other column takes its model default (`status='pending'`,
`attempts=0`, `max_attempts=3`, `next_retry=NULL`). -/
def newDelivery (event : String) (payload : Json) : WebhookDelivery :=
  { event := event, payload := payload, status := "pending", httpStatus := none,
    responseBody := "", errorMessage := "", attempts := 0, maxAttempts := 3,
    nextRetry := none, deliveredAt := none }

/-- Result of the HTTP POST inside a delivery attempt: a response with a
status code and body, or a `requests.exceptions.RequestException`. -/
inductive HttpOutcome where
  | response (code : Nat) (body : String)
  | networkError (msg : String)
deriving DecidableEq

/-- The JSON envelope `webhook_payload` built in
`WebhookService._deliver_webhook`. -/
def envelope (event ts : String) (payload : Json) : Json :=
  .obj (.cons "event" (.str event) (.cons "timestamp" (.str ts)
    (.cons "data" payload .nil)))

/-- String signed by `_deliver_webhook`:
`json.dumps(webhook_payload, separators=(",", ":"))`. -/
def signedPayload (env : Json) : String := dumps "," ":" env

/-- Body actually sent by `requests.post(webhook.url, json=webhook_payload)`:
the `json.dumps` serialization with its default separators. -/
def requestBody (env : Json) : String := dumps ", " ": " env

/-- Python `dict.update`: overriding entries replace, new entries append. -/
def dictUpdate (base upd : List (String × String)) : List (String × String) :=
  upd.foldl (fun acc kv =>
    if acc.any (fun p => p.1 = kv.1) then
      acc.map (fun p => if p.1 = kv.1 then kv else p)
    else acc ++ [kv]) base

/-- Headers attached to the POST in `_deliver_webhook`: base headers, then the
webhook's custom headers, then `X-Webhook-Signature` when a secret is set
(the signature is computed over the compact serialization). -/
def deliveryHeaders (w : Webhook) (env : Json) : List (String × String) :=
  let base := [("Content-Type", "application/json"),
               ("User-Agent", "TelecomSystem-Webhook/1.0")]
  let merged := dictUpdate base w.headers
  if w.secret ≠ "" then
    dictUpdate merged [("X-Webhook-Signature", generateSignature (signedPayload env) w.secret)]
  else merged

/-- Lookup of a header value by name. -/
def getHeader (name : String) : List (String × String) → Option String
  | [] => none
  | (k, v) :: hs => if k = name then some v else getHeader name hs

/-- Mutation of the delivery record by one attempt, exactly the
response-classification of `_deliver_webhook`: 2xx sets success fields,
other codes set failure fields, a network exception sets a failure with no
HTTP status; every branch assigns `attempts = 1` and saves. -/
def attemptResult (d : WebhookDelivery) (now : Nat) (out : HttpOutcome) : WebhookDelivery :=
  match out with
  | .response code body =>
    if 200 ≤ code ∧ code < 300 then
      { d with status := "success", httpStatus := some code,
               responseBody := body.take 1000, deliveredAt := some now, attempts := 1 }
    else
      { d with status := "failed", httpStatus := some code,
               responseBody := body.take 1000,
               errorMessage := "HTTP " ++ natToStr code, attempts := 1 }
  | .networkError msg =>
      { d with status := "failed", errorMessage := msg, attempts := 1 }

/-- Webhook counter bookkeeping of the same attempt. -/
def attemptWebhookUpdate (w : Webhook) (now : Nat) (out : HttpOutcome) : Webhook :=
  match out with
  | .response code body =>
    if 200 ≤ code ∧ code < 300 then
      { w with successCount := w.successCount + 1, lastSuccess := some now }
    else
      { w with failureCount := w.failureCount + 1, lastFailure := some now,
               lastError := "HTTP " ++ natToStr code ++ ": " ++ body.take 200 }
  | .networkError msg =>
      { w with failureCount := w.failureCount + 1, lastFailure := some now,
               lastError := msg }

/-- Whole `_deliver_webhook` call: create a fresh delivery record, attempt the
POST with outcome `out`, persist record and webhook. -/
def deliverWebhook (w : Webhook) (event : String) (payload : Json) (now : Nat)
    (out : HttpOutcome) : WebhookDelivery × Webhook :=
  (attemptResult (newDelivery event payload) now out, attemptWebhookUpdate w now out)

/-- Selection predicate of `retry_failed_deliveries`:
`status='failed' AND attempts < max_attempts AND next_retry <= now`; a NULL
`next_retry` fails the comparison, as in SQL. -/
def sweepSelects (now : Nat) (d : WebhookDelivery) : Bool :=
  decide (d.status = "failed") && decide (d.attempts < d.maxAttempts) &&
    (match d.nextRetry with
     | some t => decide (t ≤ now)
     | none => false)

/-- Mutation of the selected record in `_retry_delivery`: increment attempts,
set status to `'retry'`, set `next_retry` to now plus `2 ** attempts` minutes
computed after the increment. -/
def retryUpdate (now : Nat) (d : WebhookDelivery) : WebhookDelivery :=
  let a := d.attempts + 1
  { d with attempts := a, status := "retry", nextRetry := some (now + 2 ^ a) }

/-- Whole `_retry_delivery` call: mutate the selected record, then re-run
`_deliver_webhook`, which creates and persists a new record for the actual
attempt. Returns the mutated old record and the new record with the updated
webhook. -/
def retryDelivery (w : Webhook) (d : WebhookDelivery) (now : Nat) (out : HttpOutcome) :
    WebhookDelivery × (WebhookDelivery × Webhook) :=
  (retryUpdate now d, deliverWebhook w d.event d.payload now out)

/-- Effect of one retry sweep on a single record: mutated by `_retry_delivery`
when selected, untouched otherwise (the records created for re-attempts are
separate rows). -/
def sweepStepRecord (now : Nat) (d : WebhookDelivery) : WebhookDelivery :=
  if sweepSelects now d then retryUpdate now d else d

/-- Records selected by one sweep over a table of deliveries. -/
def sweepSelection (now : Nat) (db : List WebhookDelivery) : List WebhookDelivery :=
  db.filter (sweepSelects now)

/-- Calendar date (year, month, day), compared lexicographically as Python
`datetime.date` values are. -/
structure PyDate where
  y : Nat
  m : Nat
  d : Nat
deriving DecidableEq

/-- Strict order on dates. -/
def dateLt (a b : PyDate) : Bool :=
  decide (a.y < b.y ∨ (a.y = b.y ∧ (a.m < b.m ∨ (a.m = b.m ∧ a.d < b.d))))

/-- Issued license record (titres/models.py `Titre`); `pk` tells whether the
row already exists in the database (Django `instance.pk`). -/
structure Titre where
  tid : Nat
  pk : Bool
  numeroTitre : String
  type : String
  dateEmission : PyDate
  dateExpiration : PyDate
  dureeAns : Nat
  status : String
  redevanceAnnuelle : Int
deriving DecidableEq

/-- The `Titre.is_expired` property: current date strictly after the
expiration date. -/
def isExpired (today : PyDate) (t : Titre) : Bool := dateLt t.dateExpiration today

/-- The fixed fee schedule of `Titre.calculate_redevance`: a six-entry map
keyed by type, defaulting to 0. -/
def calculateRedevance (ty : String) : Int :=
  if ty = "licence_type_1" then 500000
  else if ty = "licence_type_2" then 300000
  else if ty = "agrement_vendeurs" then 100000
  else if ty = "agrement_installateurs" then 150000
  else if ty = "concessions" then 1000000
  else if ty = "recepisse" then 50000
  else 0

/-- The `Titre.get_type_code` mapping, defaulting to `UNK`. -/
def titreTypeCode (ty : String) : String :=
  if ty = "licence_type_1" then "LT1"
  else if ty = "licence_type_2" then "LT2"
  else if ty = "agrement_vendeurs" then "AGV"
  else if ty = "agrement_installateurs" then "AGI"
  else if ty = "concessions" then "CON"
  else if ty = "recepisse" then "REC"
  else "UNK"

/-- Number prefix `{type_code}-{year}` used by `generate_numero_titre`. -/
def titrePre (ty : String) (year : Nat) : String :=
  titreTypeCode ty ++ "-" ++ natToStr year

/-- The `Titre.generate_numero_titre` method: among titles of the same type
whose number starts with `{type_code}-{year}`, take the largest number in
string order, parse its last dash-separated component and add one; `none`
models `int()` raising on an unparsable component. -/
def generateNumeroTitre (db : List Titre) (year : Nat) (ty : String) : Option String :=
  let pre := titrePre ty year
  let matching := db.filter (fun u => decide (u.type = ty) && strStartsWith pre u.numeroTitre)
  match maxStr (matching.map (fun u => u.numeroTitre)) with
  | none => some (pre ++ "-" ++ pad4 1)
  | some s => (parseNat (lastPart (splitDash s))).map (fun k => pre ++ "-" ++ pad4 (k + 1))

/-- The `Titre.save` method body followed by the `titre_pre_save` signal that
fires inside `super().save()`: generate the number when absent, always
recompute the fee from the type, flip status to `'expire'` when past the
expiration date, and let the signal repeat the expiration check for existing
rows with its own status exclusions. `none` models number generation
raising. -/
def titreSave (db : List Titre) (today : PyDate) (t : Titre) : Option Titre :=
  let num? := if t.numeroTitre = "" then generateNumeroTitre db today.y t.type
              else some t.numeroTitre
  num?.map (fun num =>
    let t1 := { t with numeroTitre := num, redevanceAnnuelle := calculateRedevance t.type }
    let t2 := if isExpired today t1 && decide (t1.status ≠ "expire") then
                { t1 with status := "expire" } else t1
    if t.pk && isExpired today t2 && !(t2.status = "expire" || t2.status = "rejete") then
      { t2 with status := "expire" }
    else t2)

/-- Yearly fee row (titres/models.py `RedevanceTitre`). -/
structure Redevance where
  titreId : Nat
  annee : Nat
  montant : Int
  dateEcheance : PyDate
  statusPaiement : String
  datePaiement : Option PyDate
deriving DecidableEq

/-- The `RedevanceTitre.save` method: auto-promote a pending fee to overdue
once the due date has passed. -/
def redevanceSave (today : PyDate) (r : Redevance) : Redevance :=
  if dateLt r.dateEcheance today && decide (r.statusPaiement ≠ "paye") &&
     decide (r.statusPaiement = "en_attente") then
    { r with statusPaiement := "en_retard" }
  else r

/-- A fee row as created by `RedevanceTitre.objects.create(titre, annee,
montant, date_echeance=date(annee, 12, 31))`, including the `save` hook. -/
def createRedevance (titreId annee : Nat) (montant : Int) (today : PyDate) : Redevance :=
  redevanceSave today
    { titreId := titreId, annee := annee, montant := montant,
      dateEcheance := ⟨annee, 12, 31⟩, statusPaiement := "en_attente", datePaiement := none }

/-- Existence check `RedevanceTitre.objects.filter(titre=..., annee=...)`. -/
def hasRedevance (rs : List Redevance) (titreId annee : Nat) : Bool :=
  rs.any (fun r => decide (r.titreId = titreId) && decide (r.annee = annee))

/-- Database state for the titles app: the two tables the claims read. -/
structure TitresState where
  titres : List Titre
  redevances : List Redevance
deriving DecidableEq

/-- The `titre_post_save` signal: only a newly created title that is already
`'approuve'` gets a current-year fee row, and only when none exists for the
(title, year) pair. -/
def titrePostSave (st : TitresState) (t : Titre) (created : Bool) (today : PyDate) : TitresState :=
  if created && decide (t.status = "approuve") then
    if hasRedevance st.redevances t.tid today.y then st
    else { st with redevances := st.redevances ++ [createRedevance t.tid today.y t.redevanceAnnuelle today] }
  else st

/-- Database-level save of a title: run `Titre.save`, write the row, then
fire `titre_post_save` with `created` true exactly when the row was new. -/
def saveTitreDB (st : TitresState) (today : PyDate) (t : Titre) : Option (TitresState × Titre) :=
  (titreSave st.titres today t).map (fun t2 =>
    let created := !t.pk
    let t3 := { t2 with pk := true }
    let titres := if t.pk then st.titres.map (fun u => if u.tid = t.tid then t3 else u)
                  else st.titres ++ [t3]
    (titrePostSave { st with titres := titres } t3 created today, t3))

/-- The `TitreViewSet.reactivate` action: a suspended (`'rejete'`) title is
set to `'approuve'` and saved; any other status is rejected with no change. -/
def reactivateTitre (st : TitresState) (today : PyDate) (t : Titre) : Option TitresState :=
  if t.status = "rejete" then
    (saveTitreDB st today { t with status := "approuve" }).map (fun p => p.1)
  else some st

/-- Loop body of `generate_annual_fees`: skip a title that already has the
year's fee row, otherwise create the row (amount copied from the title's
current fee, due December 31) and count it. -/
def genFeeStep (annee : Nat) (today : PyDate) (acc : TitresState × Nat) (t : Titre) :
    TitresState × Nat :=
  if hasRedevance acc.1.redevances t.tid annee then acc
  else ({ acc.1 with
            redevances := acc.1.redevances ++
              [createRedevance t.tid annee t.redevanceAnnuelle today] },
        acc.2 + 1)

/-- The `generate_annual_fees` action: iterate titles with status
`'approuve'` and create the year's fee row for each that lacks one, counting
creations. -/
def generateAnnualFees (st : TitresState) (annee : Nat) (today : PyDate) : TitresState × Nat :=
  (st.titres.filter (fun t => decide (t.status = "approuve"))).foldl (genFeeStep annee today)
    (st, 0)

/-- Request record, with the fields `update_status` touches
(demandes/models.py `Demande`). -/
structure DemandeRec where
  did : Nat
  status : String
  commentairesAdmin : String
  assignee : Option String
  dateTraitement : Option PyDate
deriving DecidableEq

/-- One `HistoriqueDemande` row. -/
structure HistDemande where
  demandeId : Nat
  action : String
  utilisateur : Option String
  ancienStatus : Option String
  nouveauStatus : Option String
  commentaire : String
deriving DecidableEq

/-- Action label for a status value, the identical four-way dispatch written
in both `DemandeViewSet.update_status` and `demande_post_save`. -/
def actionForStatus (s : String) : String :=
  if s = "en_examen" then "mise_en_examen"
  else if s = "approuvee" then "approbation"
  else if s = "rejetee" then "rejet"
  else "modification"

/-- The `demande_post_save` signal on a non-created save: when the status
changed and no history row already records this (old, new) pair for the
request, append one with a null user. -/
def demandePostSaveHist (hist : List HistDemande) (did : Nat) (oldStatus newStatus : String) :
    List HistDemande :=
  if decide (oldStatus ≠ newStatus) &&
     !(hist.any (fun h => decide (h.demandeId = did) && decide (h.ancienStatus = some oldStatus) &&
                          decide (h.nouveauStatus = some newStatus))) then
    hist ++ [{ demandeId := did, action := actionForStatus newStatus, utilisateur := none,
               ancienStatus := some oldStatus, nouveauStatus := some newStatus,
               commentaire := "Changement de statut: " ++ oldStatus ++ " vers " ++ newStatus }]
  else hist

/-- The `DemandeViewSet.update_status` action on a valid payload: mutate the
request, save it (which fires `demande_pre_save` and `demande_post_save`),
then create the view's own history row with the acting user. Returns the new
history table and the updated request. -/
def updateStatus (hist : List HistDemande) (dem : DemandeRec) (newStatus : String)
    (user : String) (comm : String) (assigneeId : Option String) (today : PyDate) :
    List HistDemande × DemandeRec :=
  let ancien := dem.status
  let dem1 := { dem with
    status := newStatus,
    commentairesAdmin := if comm ≠ "" then comm else dem.commentairesAdmin,
    assignee := match assigneeId with | some a => some a | none => dem.assignee,
    dateTraitement :=
      if newStatus = "approuvee" ∨ newStatus = "rejetee" then some today
      else dem.dateTraitement }
  let hist1 := demandePostSaveHist hist dem.did ancien newStatus
  let hist2 := hist1 ++ [{ demandeId := dem.did, action := actionForStatus newStatus,
                           utilisateur := some user, ancienStatus := some ancien,
                           nouveauStatus := some newStatus,
                           commentaire :=
                             if comm ≠ "" then comm
                             else "Changement de statut: " ++ ancien ++ " vers " ++ newStatus }]
  (hist2, dem1)

/-- Count of history rows recording one (old, new) status transition of one
request. -/
def transitionEntries (hist : List HistDemande) (did : Nat) (oldStatus newStatus : String) : Nat :=
  (hist.filter (fun h => decide (h.demandeId = did) && decide (h.ancienStatus = some oldStatus) &&
                         decide (h.nouveauStatus = some newStatus))).length

/-- Projection of a `Demande` row to the two columns the numbering query
reads. -/
structure DemandeRow where
  typeTitre : String
  numeroDossier : String
deriving DecidableEq

/-- The `Demande.get_type_code` mapping, defaulting to `UNK`. -/
def demandeTypeCode (ty : String) : String :=
  if ty = "licence_type_1" then "LT1"
  else if ty = "licence_type_2" then "LT2"
  else if ty = "agrement_vendeurs" then "AGV"
  else if ty = "agrement_installateurs" then "AGI"
  else if ty = "concessions" then "CON"
  else if ty = "recepisse" then "REC"
  else "UNK"

/-- The `Demande.generate_numero_dossier` method: among requests of the same
type whose number starts with `DEM-{type_code}-{year}`, take the largest
number in string order and parse its last dash-separated component; a
missing or empty number, or a parse error (`try/except` in the source),
restarts the sequence at 1. The prefix `DEM-{type_code}-{year}` it builds is
split off as `dossierPre`. -/
def dossierPre (ty : String) (year : Nat) : String :=
  "DEM-" ++ demandeTypeCode ty ++ "-" ++ natToStr year

/-- The `Demande.generate_numero_dossier` method, see `dossierPre` above. -/
def generateNumeroDossier (db : List DemandeRow) (year : Nat) (ty : String) : String :=
  let pre := dossierPre ty year
  let matching := db.filter (fun r => decide (r.typeTitre = ty) && strStartsWith pre r.numeroDossier)
  match maxStr (matching.map (fun r => r.numeroDossier)) with
  | none => pre ++ "-" ++ pad4 1
  | some s =>
    if s ≠ "" then
      match parseNat (lastPart (splitDash s)) with
      | some k => pre ++ "-" ++ pad4 (k + 1)
      | none => pre ++ "-" ++ pad4 1
    else pre ++ "-" ++ pad4 1

/-- Creation of one request of type `ty`: `Demande.save` generates the number
because a new row has none, then the row is inserted. -/
def createDemande (db : List DemandeRow) (year : Nat) (ty : String) : List DemandeRow :=
  db ++ [{ typeTitre := ty, numeroDossier := generateNumeroDossier db year ty }]

/-- Table contents after `n` sequential creations of requests of type `ty`
in year `year`, starting from an empty table. -/
def seqDemandes (year : Nat) (ty : String) : Nat → List DemandeRow
  | 0 => []
  | n + 1 => createDemande (seqDemandes year ty n) year ty

/-- A fresh `Titre` of type `ty` before numbering, with neutral defaults for
the fields the numbering query ignores. -/
def blankTitre (ty : String) : Titre :=
  { tid := 0, pk := false, numeroTitre := "", type := ty, dateEmission := ⟨2000, 1, 1⟩,
    dateExpiration := ⟨2100, 1, 1⟩, dureeAns := 1, status := "en_attente",
    redevanceAnnuelle := 0 }

/-- Title table after `n` sequential creations of titles of type `ty`, each
storing the number `generate_numero_titre` produced (empty when generation
raised, which the theorems show does not happen). -/
def seqTitres (year : Nat) (ty : String) : Nat → List Titre
  | 0 => []
  | n + 1 =>
    let db := seqTitres year ty n
    db ++ [{ blankTitre ty with numeroTitre := (generateNumeroTitre db year ty).getD "" }]

/-- Per-user notification preferences (notifications/models.py
`NotificationPreference`) restricted to the four email flags consulted by
`_should_send_email`. -/
structure NotifPrefs where
  emailExpiration : Bool
  emailStatusChange : Bool
  emailAssignment : Bool
  emailReminders : Bool
deriving DecidableEq

/-- Model defaults of `NotificationPreference`: every flag true. -/
def defaultPrefs : NotifPrefs :=
  { emailExpiration := true, emailStatusChange := true, emailAssignment := true,
    emailReminders := true }

/-- The `_should_send_email` dispatch: the flag for the four mapped types,
`True` for any other type (`dict.get(type, True)`). -/
def shouldSendEmail (ty : String) (p : NotifPrefs) : Bool :=
  if ty = "expiration" then p.emailExpiration
  else if ty = "status_change" then p.emailStatusChange
  else if ty = "assignment" then p.emailAssignment
  else if ty = "reminder" then p.emailReminders
  else true

/-- One `Notification` row, restricted to the fields the service writes. -/
structure Notification where
  ty : String
  priority : String
  isSentEmail : Bool
deriving DecidableEq

/-- Per-recipient notification state: the notification rows and the
preference row when one exists. -/
structure NotifState where
  notifications : List Notification
  prefs : Option NotifPrefs
deriving DecidableEq

/-- The `NotificationPreference.objects.get_or_create` call: reuse the row or
create one with model defaults. -/
def getOrCreatePrefs (st : NotifState) : NotifPrefs × NotifState :=
  match st.prefs with
  | some p => (p, st)
  | none => (defaultPrefs, { st with prefs := some defaultPrefs })

/-- The `send_email_notification` service call on a notification at index
`idx`: consult (auto-creating) the preferences, skip when the flag for the
type is off, otherwise attempt the send; `emailOk` tells whether `send_mail`
succeeded or raised, and a raise is caught and reported as `false` without
touching the row. -/
def sendEmailNotification (st : NotifState) (idx : Nat) (ty : String) (emailOk : Bool) :
    NotifState × Bool :=
  let (p, st1) := getOrCreatePrefs st
  if !(shouldSendEmail ty p) then (st1, false)
  else if emailOk then
    let marked := st1.notifications.mapIdx
      (fun i n => if i = idx then { n with isSentEmail := true } else n)
    ({ st1 with notifications := marked }, true)
  else (st1, false)

/-- The `create_notification` service call: unconditionally insert the
notification row, then, when `sendEmail` is set, run the email path whose
failures are swallowed; returns the new state and the created row's index
(`None` is impossible here because row insertion itself cannot raise in the
model). -/
def createNotification (st : NotifState) (ty priority : String) (sendEmail emailOk : Bool) :
    NotifState × Option Nat :=
  let idx := st.notifications.length
  let st1 := { st with notifications := st.notifications ++ [{ ty := ty, priority := priority, isSentEmail := false }] }
  let st2 := if sendEmail then (sendEmailNotification st1 idx ty emailOk).1 else st1
  (st2, some idx)

/-- Sample webhook used to evaluate the delivery engine at concrete inputs:
no secret, subscribed to `demande.created`. -/
def sampleWebhook : Webhook :=
  { url := "https://partner.example/hooks", events := ["demande.created"], secret := "",
    headers := [], successCount := 0, failureCount := 0, lastSuccess := none,
    lastFailure := none, lastError := "" }

/-- Sample event payload. -/
def samplePayload : Json := .obj (.cons "id" (.str "42") .nil)

/-- The delivery record left by a first attempt answered with HTTP 500 at
time 0. -/
def failedFirstAttempt : WebhookDelivery :=
  (deliverWebhook sampleWebhook "demande.created" samplePayload 0
    (.response 500 "Internal Server Error")).1

/-- Sample webhook with a signing secret, for the signature claim. -/
def signingWebhook : Webhook :=
  { sampleWebhook with secret := "whsec_9f8e7d6c", events := ["titre.created"] }

/-- Sample envelope as built by `_deliver_webhook` for a title event. -/
def sampleEnv : Json :=
  envelope "titre.created" "2025-06-01T12:00:00+00:00"
    (.obj (.cons "id" (.str "42") (.cons "numero_titre" (.str "LT1-2025-0001") .nil)))

/-- Sample suspended title: approved in the past, suspended (status
`'rejete'`), far from expiring, with no fee rows yet for 2025. -/
def suspendedTitre : Titre :=
  { tid := 7, pk := true, numeroTitre := "LT1-2025-0001", type := "licence_type_1",
    dateEmission := ⟨2025, 1, 1⟩, dateExpiration := ⟨2030, 1, 1⟩, dureeAns := 5,
    status := "rejete", redevanceAnnuelle := 500000 }

/-- State holding only the suspended title and no fee rows. -/
def suspendedState : TitresState := ⟨[suspendedTitre], []⟩

/-- Fresh approved type-1 licence row used by the fee witnesses. -/
def freshApprovedTitre : Titre :=
  { tid := 3, pk := false, numeroTitre := "LT1-2025-0003", type := "licence_type_1",
    dateEmission := ⟨2025, 1, 1⟩, dateExpiration := ⟨2030, 1, 1⟩, dureeAns := 5,
    status := "approuve", redevanceAnnuelle := 0 }

/-- Sample request awaiting review. -/
def sampleDemande : DemandeRec :=
  { did := 1, status := "soumise", commentairesAdmin := "", assignee := none,
    dateTraitement := none }

end BackendFront

namespace BackendFront

/-- SHA-256 of `"abc"` matches the FIPS 180-4 test vector, anchoring the
hash implementation used by the signature claims. -/
theorem sha256_matches_test_vector :
    hexBytes (sha256 (utf8 "abc")) =
      "ba7816bf8f01cfea414140de5dae2223b00361a396177a9cb410ff61f20015ad" := by
  decide

/-- A record whose attempts have reached its maximum fails the sweep
selection predicate. -/
theorem sweepSelects_false_of_max (now : Nat) (d : WebhookDelivery)
    (h : d.maxAttempts ≤ d.attempts) : sweepSelects now d = false := by
  have hlt : decide (d.attempts < d.maxAttempts) = false := by
    simp only [decide_eq_false_iff_not]
    omega
  simp [sweepSelects, hlt]

/-- A record at its maximum attempts is untouched by any number of sweeps. -/
theorem sweepEvolve_fixed (d : WebhookDelivery) (h : d.maxAttempts ≤ d.attempts) :
    ∀ ts : List Nat, ts.foldl (fun x t => sweepStepRecord t x) d = d := by
  intro ts
  induction ts with
  | nil => rfl
  | cons t ts ih =>
    have hstep : sweepStepRecord t d = d := by
      simp [sweepStepRecord, sweepSelects_false_of_max t d h]
    simp only [List.foldl_cons, hstep, ih]

/-- C1: every delivery attempt raises the attempt counter of a delivery
record by exactly one and persists the attempt's outcome — the record created
by `_deliver_webhook` goes from 0 to 1 attempts with its status, HTTP code
and error fields set by the outcome (network errors included), and the record
mutated by `_retry_delivery` gains exactly one attempt — and once a record's
attempts equal its `max_attempts`, no retry sweep, now or after any sequence
of further sweeps, selects it again. -/
theorem delivery_attempt_bookkeeping :
    (∀ (w : Webhook) (event : String) (payload : Json) (now : Nat) (out : HttpOutcome),
      (deliverWebhook w event payload now out).1.attempts =
        (newDelivery event payload).attempts + 1) ∧
    (∀ (w : Webhook) (event : String) (payload : Json) (now code : Nat) (body : String),
      200 ≤ code ∧ code < 300 →
        (deliverWebhook w event payload now (.response code body)).1.status = "success" ∧
        (deliverWebhook w event payload now (.response code body)).1.httpStatus = some code ∧
        (deliverWebhook w event payload now (.response code body)).1.deliveredAt = some now) ∧
    (∀ (w : Webhook) (event : String) (payload : Json) (now code : Nat) (body : String),
      ¬(200 ≤ code ∧ code < 300) →
        (deliverWebhook w event payload now (.response code body)).1.status = "failed" ∧
        (deliverWebhook w event payload now (.response code body)).1.httpStatus = some code) ∧
    (∀ (w : Webhook) (event : String) (payload : Json) (now : Nat) (msg : String),
      (deliverWebhook w event payload now (.networkError msg)).1.status = "failed" ∧
      (deliverWebhook w event payload now (.networkError msg)).1.errorMessage = msg) ∧
    (∀ (now : Nat) (d : WebhookDelivery), (retryUpdate now d).attempts = d.attempts + 1) ∧
    (∀ (d : WebhookDelivery), d.attempts = d.maxAttempts →
      ∀ (ts : List Nat) (now : Nat),
        sweepSelects now (ts.foldl (fun x t => sweepStepRecord t x) d) = false) := by
  refine ⟨?_, ?_, ?_, ?_, ?_, ?_⟩
  · intro w event payload now out
    cases out with
    | response code body =>
      by_cases h : 200 ≤ code ∧ code < 300 <;>
        simp [deliverWebhook, attemptResult, newDelivery, h]
    | networkError msg => simp [deliverWebhook, attemptResult, newDelivery]
  · intro w event payload now code body h
    simp [deliverWebhook, attemptResult, h]
  · intro w event payload now code body h
    simp [deliverWebhook, attemptResult, h]
  · intro w event payload now msg
    simp [deliverWebhook, attemptResult]
  · intro now d
    simp [retryUpdate]
  · intro d hmax ts now
    rw [sweepEvolve_fixed d (by omega) ts]
    exact sweepSelects_false_of_max now d (by omega)

/-- Witness for the bookkeeping claim: the concrete failed first attempt has
one attempt with its failure persisted, and a concrete exhausted record
(attempts = max_attempts = 3) survives the sweeps at times 5 and 10
unselected. -/
theorem delivery_attempt_bookkeeping_witness :
    failedFirstAttempt.attempts = 1 ∧ failedFirstAttempt.status = "failed" ∧
    sweepSelects 12
      (([5, 10] : List Nat).foldl (fun x t => sweepStepRecord t x)
        { failedFirstAttempt with attempts := 3 }) = false := by
  refine ⟨?_, ?_, ?_⟩
  · have h := delivery_attempt_bookkeeping.1 sampleWebhook "demande.created" samplePayload 0
      (.response 500 "Internal Server Error")
    simpa [failedFirstAttempt, newDelivery] using h
  · have h := (delivery_attempt_bookkeeping.2.2.1 sampleWebhook "demande.created" samplePayload 0
      500 "Internal Server Error" (by omega)).1
    simpa [failedFirstAttempt] using h
  · exact delivery_attempt_bookkeeping.2.2.2.2.2
      { failedFirstAttempt with attempts := 3 } (by decide) [5, 10] 12

/-- C2 fails on the code: a first attempt answered with HTTP 500 leaves
`next_retry` NULL (the failure branches of `_deliver_webhook` never set it),
so the sweep two minutes later — or any sweep — selects nothing; and even
for a record given a due `next_retry` by hand, `_retry_delivery` computes the
backoff after incrementing (4 minutes at the first retry, not 2), records the
re-attempt's outcome on a freshly created record with `attempts = 1` and
`next_retry` NULL, and leaves the selected record parked in status `'retry'`,
which no sweep selects either. -/
theorem retry_sweep_divergence :
    failedFirstAttempt.status = "failed" ∧
    failedFirstAttempt.attempts = 1 ∧
    failedFirstAttempt.nextRetry = none ∧
    sweepSelects 2 failedFirstAttempt = false ∧
    sweepSelection 2 [failedFirstAttempt] = [] ∧
    (retryUpdate 2 { failedFirstAttempt with nextRetry := some 2 }).nextRetry = some 6 ∧
    (retryDelivery sampleWebhook { failedFirstAttempt with nextRetry := some 2 } 2
        (.response 500 "Internal Server Error")).1.status = "retry" ∧
    (retryDelivery sampleWebhook { failedFirstAttempt with nextRetry := some 2 } 2
        (.response 500 "Internal Server Error")).2.1.attempts = 1 ∧
    (retryDelivery sampleWebhook { failedFirstAttempt with nextRetry := some 2 } 2
        (.response 500 "Internal Server Error")).2.1.nextRetry = none ∧
    sweepSelects 100
      (retryDelivery sampleWebhook { failedFirstAttempt with nextRetry := some 2 } 2
        (.response 500 "Internal Server Error")).1 = false := by
  decide

/-- C3 fails on the code: for a webhook with a signing secret, the
`X-Webhook-Signature` header is the hex HMAC-SHA256 of the compact
serialization `json.dumps(envelope, separators=(",", ":"))`, while
`requests.post(json=...)` sends the envelope serialized with the default
separators; on the sample envelope the two byte strings differ, and the
attached signature differs from the HMAC of the body actually sent, so the
header does not sign the exact bytes of the request body. -/
theorem signature_body_divergence :
    getHeader "X-Webhook-Signature" (deliveryHeaders signingWebhook sampleEnv) =
      some (generateSignature (signedPayload sampleEnv) signingWebhook.secret) ∧
    signedPayload sampleEnv ≠ requestBody sampleEnv ∧
    generateSignature (signedPayload sampleEnv) signingWebhook.secret ≠
      generateSignature (requestBody sampleEnv) signingWebhook.secret := by
  refine ⟨by decide, by decide, by decide⟩

/-- C4 fails on the code: the very first `'soumise' → 'en_examen'` transition
of a request run through `update_status` appends two history rows for that
transition — one from the `demande_post_save` signal (whose duplicate check
runs before the view writes its own row) and one from the view — where the
claim requires exactly one. The status itself is applied once. -/
theorem update_status_double_history :
    transitionEntries
      (updateStatus [] sampleDemande "en_examen" "admin@telecom.sys" "" none ⟨2025, 6, 1⟩).1
      1 "soumise" "en_examen" = 2 ∧
    (updateStatus [] sampleDemande "en_examen" "admin@telecom.sys" "" none ⟨2025, 6, 1⟩).2.status
      = "en_examen" := by
  decide

/-- C5 fails on the code: reactivating the sample suspended title flips it to
`'approuve'` — its first time in that status with no fee row for the current
year — yet the fee table stays empty, because `titre_post_save` creates a fee
row only for a newly created row (`created=True`) already in `'approuve'`. -/
theorem reactivate_creates_no_fee :
    (reactivateTitre suspendedState ⟨2025, 6, 1⟩ suspendedTitre).map TitresState.redevances
      = some [] ∧
    (reactivateTitre suspendedState ⟨2025, 6, 1⟩ suspendedTitre).map
        (fun s => s.titres.map Titre.status) = some ["approuve"] ∧
    hasRedevance suspendedState.redevances suspendedTitre.tid 2025 = false := by
  decide


/-- Fee rows added by `titre_post_save`, as one equation: a row is appended
exactly for a created title in status `'approuve'` with no existing
(title, year) row. -/
theorem titrePostSave_redevances (st : TitresState) (t : Titre) (created : Bool)
    (today : PyDate) :
    (titrePostSave st t created today).redevances =
      if created && decide (t.status = "approuve") &&
         !hasRedevance st.redevances t.tid today.y then
        st.redevances ++ [createRedevance t.tid today.y t.redevanceAnnuelle today]
      else st.redevances := by
  cases created <;> by_cases h1 : t.status = "approuve" <;>
    cases h2 : hasRedevance st.redevances t.tid today.y <;>
      simp [titrePostSave, h1, h2]

/-- Fee rows after a database-level title save, as one equation over the
saved row `t3`. -/
theorem saveTitreDB_redevances (st : TitresState) (today : PyDate) (t : Titre)
    (st2 : TitresState) (t3 : Titre) (h : saveTitreDB st today t = some (st2, t3)) :
    st2.redevances =
      if (!t.pk) && decide (t3.status = "approuve") &&
         !hasRedevance st.redevances t3.tid today.y then
        st.redevances ++ [createRedevance t3.tid today.y t3.redevanceAnnuelle today]
      else st.redevances := by
  unfold saveTitreDB at h
  cases hs : titreSave st.titres today t with
  | none => rw [hs] at h; simp at h
  | some t2 =>
    rw [hs] at h
    simp only [Option.map_some', Option.some.injEq] at h
    injection h with h1 h2
    subst h1
    subst h2
    rw [titrePostSave_redevances]

/-- C5 amended: the current-year FeeRecord is created, when absent, only on
the save of a new `Titre` row that ends the save in status `'approuve'`;
saving an existing row — in particular the reactivation transition into
`'approuve'` — never adds fee rows, and a pre-existing (title, year) row
suppresses creation. -/
theorem fee_on_first_approval_only :
    (∀ (st : TitresState) (t : Titre) (today : PyDate),
      titrePostSave st t false today = st) ∧
    (∀ (st : TitresState) (today : PyDate) (t : Titre) (st2 : TitresState) (t3 : Titre),
      saveTitreDB st today t = some (st2, t3) → t.pk = true →
        st2.redevances = st.redevances) ∧
    (∀ (st : TitresState) (today : PyDate) (t : Titre) (st2 : TitresState) (t3 : Titre),
      saveTitreDB st today t = some (st2, t3) → t.pk = false → t3.status = "approuve" →
        hasRedevance st.redevances t3.tid today.y = false →
        st2.redevances = st.redevances ++
          [createRedevance t3.tid today.y t3.redevanceAnnuelle today]) ∧
    (∀ (st : TitresState) (today : PyDate) (t : Titre) (st2 : TitresState) (t3 : Titre),
      saveTitreDB st today t = some (st2, t3) →
        hasRedevance st.redevances t3.tid today.y = true →
        st2.redevances = st.redevances) := by
  refine ⟨?_, ?_, ?_, ?_⟩
  · intro st t today
    simp [titrePostSave]
  · intro st today t st2 t3 hsave hpk
    rw [saveTitreDB_redevances st today t st2 t3 hsave, hpk]
    simp
  · intro st today t st2 t3 hsave hpk hstatus hhas
    rw [saveTitreDB_redevances st today t st2 t3 hsave, hpk, hstatus, hhas]
    simp
  · intro st today t st2 t3 hsave hhas
    rw [saveTitreDB_redevances st today t st2 t3 hsave, hhas]
    simp

/-- Witness for the amended fee claim: a transition-style post-save adds
nothing to the concrete suspended state, while saving the fresh approved
title into the empty state creates exactly its 2025 fee row. -/
theorem fee_on_first_approval_only_witness :
    titrePostSave suspendedState suspendedTitre false ⟨2025, 6, 1⟩ = suspendedState ∧
    (saveTitreDB ⟨[], []⟩ ⟨2025, 6, 1⟩ freshApprovedTitre).map (fun p => p.1.redevances) =
      some [createRedevance 3 2025 500000 ⟨2025, 6, 1⟩] := by
  constructor
  · exact fee_on_first_approval_only.1 suspendedState suspendedTitre ⟨2025, 6, 1⟩
  · have hsave : saveTitreDB ⟨[], []⟩ ⟨2025, 6, 1⟩ freshApprovedTitre =
        some (⟨[{ freshApprovedTitre with pk := true, redevanceAnnuelle := 500000 }],
               [createRedevance 3 2025 500000 ⟨2025, 6, 1⟩]⟩,
              { freshApprovedTitre with pk := true, redevanceAnnuelle := 500000 }) := by
      decide
    have h2 := fee_on_first_approval_only.2.2.1 ⟨[], []⟩ ⟨2025, 6, 1⟩ freshApprovedTitre
      _ _ hsave (by decide) (by decide) (by decide)
    rw [hsave, Option.map_some', h2]
    decide

/-- C8: `is_expired` holds exactly when the current date is strictly after
the title's expiration date, spelled out on date components; it ignores the
stored status; and a save of a title past its expiration date whose status is
not `'expire'` ends with status `'expire'`, with the expiration date kept. -/
theorem expiration_flip_on_save :
    (∀ (today : PyDate) (t : Titre),
      isExpired today t = true ↔
        (t.dateExpiration.y < today.y ∨
          (t.dateExpiration.y = today.y ∧
            (t.dateExpiration.m < today.m ∨
              (t.dateExpiration.m = today.m ∧ t.dateExpiration.d < today.d))))) ∧
    (∀ (today : PyDate) (t : Titre) (s : String),
      isExpired today { t with status := s } = isExpired today t) ∧
    (∀ (db : List Titre) (today : PyDate) (t t2 : Titre),
      titreSave db today t = some t2 → isExpired today t = true → t.status ≠ "expire" →
        t2.status = "expire" ∧ t2.dateExpiration = t.dateExpiration) := by
  refine ⟨?_, ?_, ?_⟩
  · intro today t
    simp [isExpired, dateLt]
  · intro today t s
    simp [isExpired, dateLt]
  · intro db today t t2 hsave hexp hstat
    have he : dateLt t.dateExpiration today = true := hexp
    unfold titreSave at hsave
    cases hn : (if t.numeroTitre = "" then generateNumeroTitre db today.y t.type
                else some t.numeroTitre) with
    | none => rw [hn] at hsave; simp at hsave
    | some num =>
      rw [hn] at hsave
      simp only [Option.map_some', Option.some.injEq] at hsave
      subst hsave
      constructor
      · simp [isExpired, he, hstat]
      · simp [isExpired, he, hstat]

/-- Witness for the expiration claim: a concrete approved title one day past
its expiration date is expired, and saving it yields status `'expire'`. -/
theorem expiration_flip_on_save_witness :
    isExpired ⟨2030, 1, 2⟩ { suspendedTitre with status := "approuve" } = true ∧
    (titreSave [] ⟨2030, 1, 2⟩ { suspendedTitre with status := "approuve" }).map Titre.status
      = some "expire" := by
  have h1 : isExpired ⟨2030, 1, 2⟩ { suspendedTitre with status := "approuve" } = true := by
    decide
  refine ⟨h1, ?_⟩
  have hsave : titreSave [] ⟨2030, 1, 2⟩ { suspendedTitre with status := "approuve" } =
      some { suspendedTitre with status := "expire" } := by decide
  have h2 := (expiration_flip_on_save.2.2 [] ⟨2030, 1, 2⟩
    { suspendedTitre with status := "approuve" } { suspendedTitre with status := "expire" }
    hsave h1 (by decide)).1
  rw [hsave, Option.map_some', h2]

/-- C10: every successful save stores as annual fee exactly the schedule
amount determined by the title's type — the save recomputes
`calculate_redevance` unconditionally, so whatever fee the caller had set is
overwritten — and the schedule maps the six known types to 500000, 300000,
100000, 150000, 1000000 and 50000, and every other type to 0. -/
theorem save_overwrites_fee :
    (∀ (db : List Titre) (today : PyDate) (t t2 : Titre),
      titreSave db today t = some t2 →
        t2.redevanceAnnuelle = calculateRedevance t.type) ∧
    calculateRedevance "licence_type_1" = 500000 ∧
    calculateRedevance "licence_type_2" = 300000 ∧
    calculateRedevance "agrement_vendeurs" = 100000 ∧
    calculateRedevance "agrement_installateurs" = 150000 ∧
    calculateRedevance "concessions" = 1000000 ∧
    calculateRedevance "recepisse" = 50000 ∧
    (∀ ty : String, ty ≠ "licence_type_1" → ty ≠ "licence_type_2" →
      ty ≠ "agrement_vendeurs" → ty ≠ "agrement_installateurs" → ty ≠ "concessions" →
      ty ≠ "recepisse" → calculateRedevance ty = 0) := by
  refine ⟨?_, by decide, by decide, by decide, by decide, by decide, by decide, ?_⟩
  · intro db today t t2 hsave
    unfold titreSave at hsave
    cases hn : (if t.numeroTitre = "" then generateNumeroTitre db today.y t.type
                else some t.numeroTitre) with
    | none => rw [hn] at hsave; simp at hsave
    | some num =>
      rw [hn] at hsave
      simp only [Option.map_some', Option.some.injEq] at hsave
      subst hsave
      split <;> split <;> rfl
  · intro ty h1 h2 h3 h4 h5 h6
    simp [calculateRedevance, h1, h2, h3, h4, h5, h6]

/-- Witness for the fee-overwrite claim: a caller-supplied fee of 999 on a
type-1 licence comes back from save as the schedule amount 500000. -/
theorem save_overwrites_fee_witness :
    (titreSave [] ⟨2025, 6, 1⟩ { suspendedTitre with redevanceAnnuelle := 999 }).map
      Titre.redevanceAnnuelle = some 500000 := by
  have hsave : titreSave [] ⟨2025, 6, 1⟩ { suspendedTitre with redevanceAnnuelle := 999 } =
      some { suspendedTitre with redevanceAnnuelle := 500000 } := by decide
  have h := save_overwrites_fee.1 [] ⟨2025, 6, 1⟩
    { suspendedTitre with redevanceAnnuelle := 999 }
    { suspendedTitre with redevanceAnnuelle := 500000 } hsave
  rw [hsave, Option.map_some', h]
  decide

/-- A created fee row carries the requested title, year, amount and the
December 31 due date, whatever the payment-status auto-promotion did. -/
theorem createRedevance_fields (i a : Nat) (m : Int) (today : PyDate) :
    (createRedevance i a m today).titreId = i ∧ (createRedevance i a m today).annee = a ∧
    (createRedevance i a m today).montant = m ∧
    (createRedevance i a m today).dateEcheance = ⟨a, 12, 31⟩ := by
  unfold createRedevance redevanceSave
  split <;> exact ⟨rfl, rfl, rfl, rfl⟩

/-- Appending a row extends the (title, year) existence check disjunctively. -/
theorem hasRedevance_append (rs : List Redevance) (r : Redevance) (i a : Nat) :
    hasRedevance (rs ++ [r]) i a =
      (hasRedevance rs i a || (decide (r.titreId = i) && decide (r.annee = a))) := by
  simp [hasRedevance, List.any_append]

/-- The fee-generation fold never touches the title table. -/
theorem genFeeFold_titres (annee : Nat) (today : PyDate) :
    ∀ (ts : List Titre) (acc : TitresState × Nat),
      (ts.foldl (genFeeStep annee today) acc).1.titres = acc.1.titres := by
  intro ts
  induction ts with
  | nil => intro acc; rfl
  | cons t ts ih =>
    intro acc
    rw [List.foldl_cons, ih]
    unfold genFeeStep
    split <;> rfl

/-- One fee-generation step preserves (title, year) coverage. -/
theorem genFeeStep_preserves (annee : Nat) (today : PyDate) (acc : TitresState × Nat)
    (t : Titre) (i a : Nat) (h : hasRedevance acc.1.redevances i a = true) :
    hasRedevance ((genFeeStep annee today acc t).1).redevances i a = true := by
  unfold genFeeStep
  split
  · exact h
  · simp [hasRedevance_append, h]

/-- The fee-generation fold preserves (title, year) coverage. -/
theorem genFeeFold_preserves (annee : Nat) (today : PyDate) :
    ∀ (ts : List Titre) (acc : TitresState × Nat) (i a : Nat),
      hasRedevance acc.1.redevances i a = true →
      hasRedevance ((ts.foldl (genFeeStep annee today) acc).1).redevances i a = true := by
  intro ts
  induction ts with
  | nil => intro acc i a h; exact h
  | cons t ts ih =>
    intro acc i a h
    rw [List.foldl_cons]
    exact ih _ i a (genFeeStep_preserves annee today acc t i a h)

/-- After the fold every processed title is covered for the year. -/
theorem genFeeFold_covers (annee : Nat) (today : PyDate) :
    ∀ (ts : List Titre) (acc : TitresState × Nat) (t : Titre), t ∈ ts →
      hasRedevance ((ts.foldl (genFeeStep annee today) acc).1).redevances t.tid annee = true := by
  intro ts
  induction ts with
  | nil => intro acc t h; cases h
  | cons u ts ih =>
    intro acc t h
    rw [List.foldl_cons]
    rcases List.mem_cons.mp h with h1 | h2
    · subst h1
      apply genFeeFold_preserves
      unfold genFeeStep
      split
      · assumption
      · simp only [hasRedevance_append]
        have hf := createRedevance_fields t.tid annee t.redevanceAnnuelle today
        simp [hf.1, hf.2.1]
    · exact ih _ t h2

/-- A fold over titles that are all already covered is the identity. -/
theorem genFeeFold_covered_id (annee : Nat) (today : PyDate) :
    ∀ (ts : List Titre) (acc : TitresState × Nat),
      (∀ t ∈ ts, hasRedevance acc.1.redevances t.tid annee = true) →
      ts.foldl (genFeeStep annee today) acc = acc := by
  intro ts
  induction ts with
  | nil => intro acc _; rfl
  | cons t ts ih =>
    intro acc h
    rw [List.foldl_cons]
    have hstep : genFeeStep annee today acc t = acc := by
      unfold genFeeStep
      rw [h t (List.mem_cons_self t ts)]
      simp
    rw [hstep]
    exact ih acc (fun u hu => h u (List.mem_cons_of_mem t hu))

/-- Characterization of the fee-generation fold on titles with pairwise
distinct identifiers: it appends exactly one row per processed title not yet
covered, in order, and counts them. -/
theorem genFeeFold_characterize (annee : Nat) (today : PyDate) :
    ∀ (ts : List Titre) (st : TitresState) (c : Nat), (ts.map Titre.tid).Nodup →
      ts.foldl (genFeeStep annee today) (st, c) =
        (TitresState.mk st.titres
          (st.redevances ++
            (ts.filter (fun t => !hasRedevance st.redevances t.tid annee)).map
              (fun t => createRedevance t.tid annee t.redevanceAnnuelle today)),
         c + (ts.filter (fun t => !hasRedevance st.redevances t.tid annee)).length) := by
  intro ts
  induction ts with
  | nil =>
    intro st c _
    simp
  | cons t ts ih =>
    intro st c hnd
    rw [List.map_cons, List.nodup_cons] at hnd
    have hnd' : (ts.map Titre.tid).Nodup := hnd.2
    have hne : ∀ u ∈ ts, t.tid ≠ u.tid := by
      intro u hu he
      exact hnd.1 (he ▸ List.mem_map_of_mem Titre.tid hu)
    rw [List.foldl_cons]
    cases hh : hasRedevance st.redevances t.tid annee with
    | true =>
      have hstep : genFeeStep annee today (st, c) t = (st, c) := by
        unfold genFeeStep
        rw [hh]
        simp
      rw [hstep, ih st c hnd']
      simp [List.filter_cons, hh]
    | false =>
      have hstep : genFeeStep annee today (st, c) t =
          (TitresState.mk st.titres
            (st.redevances ++ [createRedevance t.tid annee t.redevanceAnnuelle today]),
           c + 1) := by
        unfold genFeeStep
        rw [hh]
        simp
      rw [hstep, ih _ (c + 1) hnd']
      have hfields := createRedevance_fields t.tid annee t.redevanceAnnuelle today
      have hfilter :
          ts.filter (fun u => !hasRedevance (st.redevances ++
              [createRedevance t.tid annee t.redevanceAnnuelle today]) u.tid annee) =
          ts.filter (fun u => !hasRedevance st.redevances u.tid annee) := by
        apply List.filter_congr
        intro u hu
        rw [hasRedevance_append]
        have : decide ((createRedevance t.tid annee t.redevanceAnnuelle today).titreId = u.tid)
            = false := by
          rw [hfields.1]
          simp [hne u hu]
        rw [this]
        simp
      rw [hfilter]
      simp [List.filter_cons, hh, List.append_assoc]
      omega

/-- Fee generation never modifies the title table. -/
theorem generateAnnualFees_titres (st : TitresState) (annee : Nat) (today : PyDate) :
    (generateAnnualFees st annee today).1.titres = st.titres := by
  unfold generateAnnualFees
  exact genFeeFold_titres annee today _ (st, 0)

/-- A second run of fee generation for the same year returns the same state
and creates zero rows. -/
theorem generateAnnualFees_second_run (st : TitresState) (annee : Nat) (today : PyDate) :
    generateAnnualFees (generateAnnualFees st annee today).1 annee today =
      ((generateAnnualFees st annee today).1, 0) := by
  have hdef : ∀ s : TitresState, generateAnnualFees s annee today =
      (s.titres.filter (fun t => decide (t.status = "approuve"))).foldl
        (genFeeStep annee today) (s, 0) := fun s => rfl
  rw [hdef]
  apply genFeeFold_covered_id
  intro t ht
  rw [generateAnnualFees_titres] at ht
  rw [hdef]
  exact genFeeFold_covers annee today _ (st, 0) t ht

/-- C6: `generate_annual_fees` is idempotent — the second run for the same
year creates zero additional FeeRecords and leaves the state unchanged — and
on a table with distinct title identifiers the first run appends exactly one
fee row per `'approuve'` title lacking a row for the year, counting them,
each row carrying the title's current fee amount and a December 31 due
date. -/
theorem annual_fees_idempotent :
    (∀ (st : TitresState) (annee : Nat) (today : PyDate),
      (generateAnnualFees (generateAnnualFees st annee today).1 annee today).2 = 0 ∧
      (generateAnnualFees (generateAnnualFees st annee today).1 annee today).1 =
        (generateAnnualFees st annee today).1) ∧
    (∀ (st : TitresState) (annee : Nat) (today : PyDate),
      (st.titres.map Titre.tid).Nodup →
      (generateAnnualFees st annee today).1.redevances =
        st.redevances ++
          (((st.titres.filter (fun t => decide (t.status = "approuve"))).filter
              (fun t => !hasRedevance st.redevances t.tid annee)).map
            (fun t => createRedevance t.tid annee t.redevanceAnnuelle today)) ∧
      (generateAnnualFees st annee today).2 =
        ((st.titres.filter (fun t => decide (t.status = "approuve"))).filter
            (fun t => !hasRedevance st.redevances t.tid annee)).length) ∧
    (∀ (i a : Nat) (m : Int) (today : PyDate),
      (createRedevance i a m today).montant = m ∧
      (createRedevance i a m today).dateEcheance = ⟨a, 12, 31⟩) := by
  refine ⟨?_, ?_, ?_⟩
  · intro st annee today
    rw [generateAnnualFees_second_run]
    exact ⟨rfl, rfl⟩
  · intro st annee today hnd
    have hnd2 : ((st.titres.filter (fun t => decide (t.status = "approuve"))).map
        Titre.tid).Nodup :=
      List.Nodup.sublist (List.Sublist.map Titre.tid (List.filter_sublist _)) hnd
    have hchar := genFeeFold_characterize annee today
      (st.titres.filter (fun t => decide (t.status = "approuve"))) st 0 hnd2
    have hdef : generateAnnualFees st annee today =
        (st.titres.filter (fun t => decide (t.status = "approuve"))).foldl
          (genFeeStep annee today) (st, 0) := rfl
    rw [hdef, hchar]
    exact ⟨rfl, by simp⟩
  · intro i a m today
    exact ⟨(createRedevance_fields i a m today).2.2.1,
           (createRedevance_fields i a m today).2.2.2⟩

/-- Witness for the idempotence claim: on a concrete state with one approved
title lacking its 2025 row and one pending title, the first run creates
exactly one row and the second run creates zero. -/
theorem annual_fees_idempotent_witness :
    (generateAnnualFees suspendedState 2025 ⟨2025, 6, 1⟩).2 = 0 ∧
    (generateAnnualFees
        (generateAnnualFees ⟨[{ suspendedTitre with status := "approuve" }], []⟩ 2025
          ⟨2025, 6, 1⟩).1 2025 ⟨2025, 6, 1⟩).2 = 0 ∧
    (generateAnnualFees ⟨[{ suspendedTitre with status := "approuve" }], []⟩ 2025
        ⟨2025, 6, 1⟩).2 = 1 := by
  refine ⟨?_, ?_, ?_⟩
  · have h := (annual_fees_idempotent.2.1 suspendedState 2025 ⟨2025, 6, 1⟩ (by decide)).2
    rw [h]
    decide
  · exact (annual_fees_idempotent.1
      ⟨[{ suspendedTitre with status := "approuve" }], []⟩ 2025 ⟨2025, 6, 1⟩).1
  · have h := (annual_fees_idempotent.2.1
      ⟨[{ suspendedTitre with status := "approuve" }], []⟩ 2025 ⟨2025, 6, 1⟩ (by decide)).2
    rw [h]
    decide

/-- Marking the row at the append position sets exactly the appended row. -/
theorem markIdx_append (l : List Notification) (a : Notification) :
    (l ++ [a]).mapIdx (fun i n => if i = l.length then { n with isSentEmail := true } else n) =
      l ++ [{ a with isSentEmail := true }] := by
  rw [List.mapIdx_append_one]
  congr 1
  · rw [List.mapIdx_eq_ofFn]
    conv_rhs => rw [← List.ofFn_get l]
    congr 1
    funext i
    have hne : (i : Nat) ≠ l.length := Nat.ne_of_lt i.2
    simp [hne]
  · simp

/-- Element lookup at the append position. -/
theorem getD_append_len (l : List Notification) (a d : Notification) :
    (l ++ [a]).getD l.length d = a := by
  induction l with
  | nil => rfl
  | cons x l ih => simp [ih]

/-- C9: `create_notification` always inserts a notification row and returns
it regardless of the email outcome; with `send_email` it auto-creates the
recipient's preference row with all-true defaults when missing; the created
row's email-sent flag equals `send_email` AND the preference flag consulted
for the type AND email success, so a disabled flag suppresses the send and a
send failure is swallowed without failing the call; and for each of the four
mapped types the flag consulted is exactly that type's preference column. -/
theorem notification_creation_decoupled :
    (∀ (st : NotifState) (ty priority : String) (sendEmail emailOk : Bool),
      (createNotification st ty priority sendEmail emailOk).2 =
        some st.notifications.length ∧
      (createNotification st ty priority sendEmail emailOk).1.notifications.length =
        st.notifications.length + 1) ∧
    (∀ (st : NotifState) (ty priority : String) (emailOk : Bool),
      st.prefs = none →
      (createNotification st ty priority true emailOk).1.prefs = some defaultPrefs) ∧
    (∀ (st : NotifState) (ty priority : String) (sendEmail emailOk : Bool),
      ((createNotification st ty priority sendEmail emailOk).1.notifications.getD
          st.notifications.length ⟨"", "", false⟩).isSentEmail =
        (sendEmail && (shouldSendEmail ty (st.prefs.getD defaultPrefs) && emailOk))) ∧
    (∀ p : NotifPrefs,
      shouldSendEmail "expiration" p = p.emailExpiration ∧
      shouldSendEmail "status_change" p = p.emailStatusChange ∧
      shouldSendEmail "assignment" p = p.emailAssignment ∧
      shouldSendEmail "reminder" p = p.emailReminders) := by
  refine ⟨?_, ?_, ?_, ?_⟩
  · intro st ty priority sendEmail emailOk
    cases sendEmail with
    | false => exact ⟨rfl, by simp [createNotification]⟩
    | true =>
      refine ⟨rfl, ?_⟩
      cases hp : st.prefs with
      | none =>
        cases hs : shouldSendEmail ty defaultPrefs <;> cases emailOk <;>
          simp [createNotification, sendEmailNotification, getOrCreatePrefs, hp, hs,
                markIdx_append]
      | some p =>
        cases hs : shouldSendEmail ty p <;> cases emailOk <;>
          simp [createNotification, sendEmailNotification, getOrCreatePrefs, hp, hs,
                markIdx_append]
  · intro st ty priority emailOk hp
    cases hs : shouldSendEmail ty defaultPrefs <;> cases emailOk <;>
      simp [createNotification, sendEmailNotification, getOrCreatePrefs, hp, hs]
  · intro st ty priority sendEmail emailOk
    cases sendEmail with
    | false => simp [createNotification, getD_append_len]
    | true =>
      cases hp : st.prefs with
      | none =>
        cases hs : shouldSendEmail ty defaultPrefs <;> cases emailOk <;>
          simp [createNotification, sendEmailNotification, getOrCreatePrefs, hp, hs,
                markIdx_append, getD_append_len]
      | some p =>
        cases hs : shouldSendEmail ty p <;> cases emailOk <;>
          simp [createNotification, sendEmailNotification, getOrCreatePrefs, hp, hs,
                markIdx_append, getD_append_len]
  · intro p
    exact ⟨rfl, rfl, rfl, rfl⟩

/-- Witness for the notification claim: with empty state, a failing email on
an `'expiration'` notification still creates the row (unsent), auto-creating
all-true preferences; and with the expiration flag off, a working email is
suppressed. -/
theorem notification_creation_decoupled_witness :
    (createNotification ⟨[], none⟩ "expiration" "high" true false).2 = some 0 ∧
    (createNotification ⟨[], none⟩ "expiration" "high" true false).1.notifications.length = 1 ∧
    (createNotification ⟨[], none⟩ "expiration" "high" true false).1.prefs =
      some defaultPrefs ∧
    ((createNotification ⟨[], none⟩ "expiration" "high" true false).1.notifications.getD 0
        ⟨"", "", false⟩).isSentEmail = false ∧
    ((createNotification ⟨[], some ⟨false, true, true, true⟩⟩ "expiration" "high" true
          true).1.notifications.getD 0 ⟨"", "", false⟩).isSentEmail = false := by
  refine ⟨?_, ?_, ?_, ?_, ?_⟩
  · exact (notification_creation_decoupled.1 ⟨[], none⟩ "expiration" "high" true false).1
  · exact (notification_creation_decoupled.1 ⟨[], none⟩ "expiration" "high" true false).2
  · exact notification_creation_decoupled.2.1 ⟨[], none⟩ "expiration" "high" false rfl
  · have h := notification_creation_decoupled.2.2.1 ⟨[], none⟩ "expiration" "high" true false
    exact h.trans (by decide)
  · have h := notification_creation_decoupled.2.2.1 ⟨[], some ⟨false, true, true, true⟩⟩
      "expiration" "high" true true
    exact h.trans (by decide)

/-- Strict lexicographic order is asymmetric. -/
theorem lexLt_asymm : ∀ (as bs : List Char), lexLt as bs = true → lexLt bs as = false := by
  intro as
  induction as with
  | nil =>
    intro bs h
    cases bs with
    | nil => simp [lexLt] at h
    | cons b bs => simp [lexLt]
  | cons a as ih =>
    intro bs h
    cases bs with
    | nil => simp [lexLt] at h
    | cons b bs =>
      simp only [lexLt] at h ⊢
      by_cases h1 : a.toNat < b.toNat
      · have h2 : ¬ b.toNat < a.toNat := by omega
        simp [h1, h2]
      · by_cases h2 : b.toNat < a.toNat
        · simp [h1, h2] at h
        · simp only [h1, h2, if_false] at h ⊢
          exact ih bs h

/-- A shared prefix cancels on the left of the lexicographic order. -/
theorem lexLt_append_left : ∀ (p a b : List Char), lexLt (p ++ a) (p ++ b) = lexLt a b := by
  intro p
  induction p with
  | nil => intro a b; rfl
  | cons c p ih =>
    intro a b
    simp only [List.cons_append, lexLt, Nat.lt_irrefl, if_false]
    exact ih a b

/-- Appending to a string appends the character data. -/
theorem strData_append (a b : String) : (a ++ b).data = a.data ++ b.data := rfl

/-- String order with a shared prefix cancelled. -/
theorem strLt_append_left (p a b : String) : strLt (p ++ a) (p ++ b) = strLt a b := by
  show lexLt (p ++ a).data (p ++ b).data = lexLt a.data b.data
  rw [strData_append, strData_append, lexLt_append_left]

/-- String append is associative. -/
theorem strAppend_assoc (a b c : String) : (a ++ b) ++ c = a ++ (b ++ c) :=
  congrArg String.mk (List.append_assoc a.data b.data c.data)

/-- The maximum of a list whose last element strictly dominates the rest is
that last element. -/
theorem maxStr_last : ∀ (l : List String) (m : String),
    (∀ x ∈ l, strLt x m = true) → maxStr (l ++ [m]) = some m := by
  intro l
  induction l with
  | nil => intro m _; rfl
  | cons s l ih =>
    intro m h
    have hrest := ih m (fun x hx => h x (List.mem_cons_of_mem s hx))
    have hs : strLt s m = true := h s (List.mem_cons_self s l)
    have hms : strLt m s = false := lexLt_asymm s.data m.data hs
    simp only [List.cons_append, maxStr]
    rw [show maxStr (l.append [m]) = some m from hrest]
    simp [hms]

/-- A list is a prefix of itself followed by anything. -/
theorem listStartsWith_self_append : ∀ (as bs : List Char),
    listStartsWith as (as ++ bs) = true := by
  intro as bs
  induction as with
  | nil => rfl
  | cons a as ih => simp [listStartsWith, ih]

/-- A string starts with itself followed by anything. -/
theorem strStartsWith_self_append (p s : String) : strStartsWith p (p ++ s) = true :=
  listStartsWith_self_append p.data s.data

/-- Splitting a dash-free suffix flattens to a single component. -/
theorem splitDashAux_flat : ∀ (ds acc : List Char), '-' ∉ ds →
    splitDashAux ds acc = [String.mk (acc.reverse ++ ds)] := by
  intro ds
  induction ds with
  | nil => intro acc _; simp [splitDashAux]
  | cons c ds ih =>
    intro acc h
    have hc : c ≠ '-' := fun he => h (he ▸ List.mem_cons_self c ds)
    have hds : '-' ∉ ds := fun hm => h (List.mem_cons_of_mem c hm)
    simp only [splitDashAux, if_neg (fun he => hc he)]
    rw [ih (c :: acc) hds]
    simp

/-- The splitter never returns an empty component list. -/
theorem splitDashAux_ne_nil : ∀ (cs acc : List Char), splitDashAux cs acc ≠ [] := by
  intro cs
  induction cs with
  | nil => intro acc; simp [splitDashAux]
  | cons c cs ih =>
    intro acc
    by_cases hc : c = '-'
    · subst hc
      simp [splitDashAux]
    · simp only [splitDashAux, if_neg (fun he => hc he)]
      exact ih (c :: acc)

/-- The last component of a nonempty tail skips the head. -/
theorem lastPart_cons_of_ne_nil (x : String) (l : List String) (h : l ≠ []) :
    lastPart (x :: l) = lastPart l := by
  cases l with
  | nil => exact absurd rfl h
  | cons y ys => rfl

/-- The last dash-separated component of anything followed by a dash and a
dash-free tail is that tail. -/
theorem lastPart_split : ∀ (cs ds : List Char) (acc : List Char), '-' ∉ ds →
    lastPart (splitDashAux (cs ++ '-' :: ds) acc) = String.mk ds := by
  intro cs
  induction cs with
  | nil =>
    intro ds acc h
    simp only [List.nil_append, splitDashAux, if_true]
    rw [splitDashAux_flat ds [] h]
    rw [lastPart_cons_of_ne_nil _ _ (by simp)]
    simp [lastPart]
  | cons c cs ih =>
    intro ds acc h
    by_cases hc : c = '-'
    · subst hc
      simp only [List.cons_append, splitDashAux, if_true]
      rw [lastPart_cons_of_ne_nil _ _ (splitDashAux_ne_nil _ _)]
      exact ih ds [] h
    · simp only [List.cons_append, splitDashAux, if_neg (fun he => hc he)]
      exact ih ds (c :: acc) h

/-- Digit characters have the expected code points. -/
theorem digitCh_toNat (d : Nat) (h : d < 10) : (digitCh d).toNat = 48 + d := by
  interval_cases d <;> decide

/-- Digit characters are never the dash. -/
theorem digitCh_ne_dash (d : Nat) (h : d < 10) : digitCh d ≠ '-' := by
  interval_cases d <;> decide

/-- The digit expansion ignores the exact fuel once it exceeds the number. -/
theorem natDigitsAux_congr : ∀ (f1 f2 n : Nat), n < f1 → n < f2 →
    natDigitsAux f1 n = natDigitsAux f2 n := by
  intro f1
  induction f1 with
  | zero => intro f2 n h1 _; omega
  | succ f ih =>
    intro f2 n h1 h2
    cases f2 with
    | zero => omega
    | succ g =>
      simp only [natDigitsAux]
      by_cases h : n < 10
      · simp [h]
      · simp only [h, if_false]
        have hn : n / 10 < f := by omega
        have hg : n / 10 < g := by omega
        rw [ih g (n / 10) hn hg]

/-- One-step unfolding of the decimal expansion, fuel eliminated. -/
theorem natDigits_unfold (n : Nat) :
    natDigits n = if n < 10 then [digitCh n] else natDigits (n / 10) ++ [digitCh (n % 10)] := by
  unfold natDigits
  simp only [natDigitsAux]
  by_cases h : n < 10
  · simp [h]
  · simp only [h, if_false]
    have : natDigitsAux n (n / 10) = natDigitsAux (n / 10 + 1) (n / 10) :=
      natDigitsAux_congr n (n / 10 + 1) (n / 10) (by omega) (by omega)
    rw [this]
    simp only [natDigitsAux]

/-- Explicit four-character form of the padded sequence number for values up
to 9999. -/
theorem pad4_eq (k : Nat) (h : k ≤ 9999) :
    pad4 k = String.mk [digitCh (k / 1000), digitCh (k / 100 % 10), digitCh (k / 10 % 10),
      digitCh (k % 10)] := by
  by_cases h1 : k < 10
  · have e1 : natDigits k = [digitCh k] := by rw [natDigits_unfold]; simp [h1]
    unfold pad4
    rw [e1]
    have d0 : k / 1000 = 0 := by omega
    have d1 : k / 100 % 10 = 0 := by omega
    have d2 : k / 10 % 10 = 0 := by omega
    have d3 : k % 10 = k := by omega
    simp [d0, d1, d2, d3, List.replicate, digitCh]
  · by_cases h2 : k < 100
    · have e2 : natDigits (k / 10) = [digitCh (k / 10)] := by
        rw [natDigits_unfold]; simp [show k / 10 < 10 by omega]
      have e1 : natDigits k = [digitCh (k / 10), digitCh (k % 10)] := by
        rw [natDigits_unfold]
        simp [h1, e2]
      unfold pad4
      rw [e1]
      have d0 : k / 1000 = 0 := by omega
      have d1 : k / 100 % 10 = 0 := by omega
      have d2 : k / 10 % 10 = k / 10 := by omega
      simp [d0, d1, d2, List.replicate, digitCh]
    · by_cases h3 : k < 1000
      · have e3 : natDigits (k / 100) = [digitCh (k / 100)] := by
          rw [natDigits_unfold]; simp [show k / 100 < 10 by omega]
        have e2 : natDigits (k / 10) = [digitCh (k / 100), digitCh (k / 10 % 10)] := by
          rw [natDigits_unfold]
          simp only [show ¬ k / 10 < 10 by omega, if_false]
          rw [Nat.div_div_eq_div_mul]
          simp [e3]
        have e1 : natDigits k = [digitCh (k / 100), digitCh (k / 10 % 10), digitCh (k % 10)] := by
          rw [natDigits_unfold]
          simp [h1, e2]
        unfold pad4
        rw [e1]
        have d0 : k / 1000 = 0 := by omega
        have d1 : k / 100 % 10 = k / 100 := by omega
        simp [d0, d1, List.replicate, digitCh]
      · have e4 : natDigits (k / 1000) = [digitCh (k / 1000)] := by
          rw [natDigits_unfold]; simp [show k / 1000 < 10 by omega]
        have e3 : natDigits (k / 100) = [digitCh (k / 1000), digitCh (k / 100 % 10)] := by
          rw [natDigits_unfold]
          simp only [show ¬ k / 100 < 10 by omega, if_false]
          rw [Nat.div_div_eq_div_mul]
          simp [e4]
        have e2 : natDigits (k / 10) =
            [digitCh (k / 1000), digitCh (k / 100 % 10), digitCh (k / 10 % 10)] := by
          rw [natDigits_unfold]
          simp only [show ¬ k / 10 < 10 by omega, if_false]
          rw [Nat.div_div_eq_div_mul]
          simp [e3]
        have e1 : natDigits k =
            [digitCh (k / 1000), digitCh (k / 100 % 10), digitCh (k / 10 % 10),
             digitCh (k % 10)] := by
          rw [natDigits_unfold]
          simp [h1, e2]
        unfold pad4
        rw [e1]
        simp [List.replicate]

/-- Padded sequence numbers compare in string order exactly as numbers, up
to 9999. -/
theorem strLt_pad4 (i j : Nat) (hij : i < j) (hj : j ≤ 9999) :
    strLt (pad4 i) (pad4 j) = true := by
  rw [pad4_eq i (by omega), pad4_eq j hj]
  show lexLt [digitCh (i / 1000), digitCh (i / 100 % 10), digitCh (i / 10 % 10),
      digitCh (i % 10)]
    [digitCh (j / 1000), digitCh (j / 100 % 10), digitCh (j / 10 % 10), digitCh (j % 10)] = true
  simp only [lexLt, digitCh_toNat (i / 1000) (by omega), digitCh_toNat (j / 1000) (by omega),
    digitCh_toNat (i / 100 % 10) (by omega), digitCh_toNat (j / 100 % 10) (by omega),
    digitCh_toNat (i / 10 % 10) (by omega), digitCh_toNat (j / 10 % 10) (by omega),
    digitCh_toNat (i % 10) (by omega), digitCh_toNat (j % 10) (by omega)]
  split_ifs <;> first | rfl | omega

/-- Parsing consumes one leading digit into the accumulator. -/
theorem parseNatAux_digit (d : Nat) (hd : d < 10) (cs : List Char) (acc : Nat) :
    parseNatAux (digitCh d :: cs) acc = parseNatAux cs (acc * 10 + d) := by
  simp only [parseNatAux]
  rw [digitCh_toNat d hd]
  rw [if_pos ⟨by omega, by omega⟩]
  congr 1
  omega

/-- Round trip: the padded sequence number parses back to its value. -/
theorem parseNat_pad4 (k : Nat) (h : k ≤ 9999) : parseNat (pad4 k) = some k := by
  rw [pad4_eq k h]
  show parseNatAux [digitCh (k / 1000), digitCh (k / 100 % 10), digitCh (k / 10 % 10),
    digitCh (k % 10)] 0 = some k
  rw [parseNatAux_digit (k / 1000) (by omega), parseNatAux_digit (k / 100 % 10) (by omega),
    parseNatAux_digit (k / 10 % 10) (by omega), parseNatAux_digit (k % 10) (by omega)]
  show some _ = some k
  congr 1
  omega

/-- Padded sequence numbers contain no dash. -/
theorem pad4_no_dash (k : Nat) (h : k ≤ 9999) : '-' ∉ (pad4 k).data := by
  rw [pad4_eq k h]
  intro hmem
  have hm : '-' ∈ [digitCh (k / 1000), digitCh (k / 100 % 10), digitCh (k / 10 % 10),
      digitCh (k % 10)] := hmem
  rcases List.mem_cons.mp hm with h1 | hm
  · exact digitCh_ne_dash (k / 1000) (by omega) h1.symm
  rcases List.mem_cons.mp hm with h1 | hm
  · exact digitCh_ne_dash (k / 100 % 10) (by omega) h1.symm
  rcases List.mem_cons.mp hm with h1 | hm
  · exact digitCh_ne_dash (k / 10 % 10) (by omega) h1.symm
  rcases List.mem_cons.mp hm with h1 | hm
  · exact digitCh_ne_dash (k % 10) (by omega) h1.symm
  · cases hm

/-- Sequence numbers decompose around the last dash: the last component of
`pre-NNNN` is `NNNN`, for any prefix and a padded number up to 9999. -/
theorem lastPart_splitDash_pad4 (pre : String) (k : Nat) (h : k ≤ 9999) :
    lastPart (splitDash (pre ++ "-" ++ pad4 k)) = pad4 k := by
  show lastPart (splitDashAux ((pre ++ "-" ++ pad4 k)).data []) = pad4 k
  have hdata : ((pre ++ "-" ++ pad4 k)).data = pre.data ++ '-' :: (pad4 k).data := by
    rw [strData_append, strData_append, List.append_assoc]
    rfl
  rw [hdata, lastPart_split pre.data (pad4 k).data [] (pad4_no_dash k h)]

/-- A string ending in a padded number is nonempty. -/
theorem pre_pad4_ne_empty (pre : String) (k : Nat) (h : k ≤ 9999) :
    pre ++ "-" ++ pad4 k ≠ "" := by
  intro he
  have hlen := congrArg (fun s => s.data.length) he
  simp only [strData_append, List.length_append, pad4_eq k h] at hlen
  simp at hlen

/-- One sequential creation step of the dossier numbering: on a table whose
matching rows are exactly `DEM-…-0001 … DEM-…-{n}`, the generator produces
`DEM-…-{n+1}`. -/
theorem generateNumeroDossier_step (ty : String) (year n : Nat) (h : n + 1 ≤ 9999) :
    generateNumeroDossier
        ((List.range n).map (fun i => ⟨ty, dossierPre ty year ++ "-" ++ pad4 (i + 1)⟩))
        year ty
      = dossierPre ty year ++ "-" ++ pad4 (n + 1) := by
  unfold generateNumeroDossier
  dsimp only
  have hfilter : ((List.range n).map
        (fun i => (⟨ty, dossierPre ty year ++ "-" ++ pad4 (i + 1)⟩ : DemandeRow))).filter
        (fun r => decide (r.typeTitre = ty) && strStartsWith (dossierPre ty year) r.numeroDossier)
      = (List.range n).map (fun i => ⟨ty, dossierPre ty year ++ "-" ++ pad4 (i + 1)⟩) := by
    rw [List.filter_eq_self]
    intro r hr
    rcases List.mem_map.mp hr with ⟨i, hi, rfl⟩
    simp only [decide_eq_true_eq, Bool.and_eq_true]
    refine ⟨by simp, ?_⟩
    rw [strAppend_assoc]
    exact strStartsWith_self_append _ _
  rw [hfilter, List.map_map]
  have hproj : (DemandeRow.numeroDossier ∘ fun i =>
      (⟨ty, dossierPre ty year ++ "-" ++ pad4 (i + 1)⟩ : DemandeRow)) =
      fun i => dossierPre ty year ++ "-" ++ pad4 (i + 1) := rfl
  rw [hproj]
  cases n with
  | zero => rfl
  | succ m =>
    have hmax : maxStr ((List.range (m + 1)).map
        (fun i => dossierPre ty year ++ "-" ++ pad4 (i + 1))) =
        some (dossierPre ty year ++ "-" ++ pad4 (m + 1)) := by
      rw [List.range_succ, List.map_append]
      apply maxStr_last
      intro x hx
      rcases List.mem_map.mp hx with ⟨i, hi, rfl⟩
      dsimp only
      have hilt : i < m := List.mem_range.mp hi
      rw [strAppend_assoc, strAppend_assoc, strLt_append_left]
      exact strLt_pad4 (i + 1) (m + 1) (by omega) (by omega)
    rw [hmax]
    dsimp only
    have hne : dossierPre ty year ++ "-" ++ pad4 (m + 1) ≠ "" :=
      pre_pad4_ne_empty (dossierPre ty year) (m + 1) (by omega)
    rw [if_pos hne]
    rw [lastPart_splitDash_pad4 (dossierPre ty year) (m + 1) (by omega)]
    rw [parseNat_pad4 (m + 1) (by omega)]

/-- Sequential creation of `n ≤ 9999` requests of one type in one year
yields exactly the gapless numbers `0001 … n`, in order. -/
theorem seqDemandes_eq (ty : String) (year : Nat) :
    ∀ n : Nat, n ≤ 9999 →
      seqDemandes year ty n =
        (List.range n).map (fun i => ⟨ty, dossierPre ty year ++ "-" ++ pad4 (i + 1)⟩) := by
  intro n
  induction n with
  | zero => intro _; rfl
  | succ m ih =>
    intro h
    show createDemande (seqDemandes year ty m) year ty = _
    rw [ih (by omega)]
    unfold createDemande
    rw [generateNumeroDossier_step ty year m (by omega)]
    rw [List.range_succ, List.map_append]
    rfl

/-- One sequential creation step of the title numbering: on a table whose
matching rows are exactly `…-0001 … …-{n}`, the generator succeeds and
produces `…-{n+1}`. -/
theorem generateNumeroTitre_step (ty : String) (year n : Nat) (h : n + 1 ≤ 9999) :
    generateNumeroTitre
        ((List.range n).map
          (fun i => { blankTitre ty with numeroTitre := titrePre ty year ++ "-" ++ pad4 (i + 1) }))
        year ty
      = some (titrePre ty year ++ "-" ++ pad4 (n + 1)) := by
  unfold generateNumeroTitre
  dsimp only
  have hfilter : ((List.range n).map
        (fun i => { blankTitre ty with numeroTitre := titrePre ty year ++ "-" ++ pad4 (i + 1) })).filter
        (fun u => decide (u.type = ty) && strStartsWith (titrePre ty year) u.numeroTitre)
      = (List.range n).map
          (fun i => { blankTitre ty with numeroTitre := titrePre ty year ++ "-" ++ pad4 (i + 1) }) := by
    rw [List.filter_eq_self]
    intro r hr
    rcases List.mem_map.mp hr with ⟨i, hi, rfl⟩
    simp only [decide_eq_true_eq, Bool.and_eq_true]
    refine ⟨by simp [blankTitre], ?_⟩
    rw [strAppend_assoc]
    exact strStartsWith_self_append _ _
  rw [hfilter, List.map_map]
  have hproj : (Titre.numeroTitre ∘ fun i =>
      { blankTitre ty with numeroTitre := titrePre ty year ++ "-" ++ pad4 (i + 1) }) =
      fun i => titrePre ty year ++ "-" ++ pad4 (i + 1) := rfl
  rw [hproj]
  cases n with
  | zero => rfl
  | succ m =>
    have hmax : maxStr ((List.range (m + 1)).map
        (fun i => titrePre ty year ++ "-" ++ pad4 (i + 1))) =
        some (titrePre ty year ++ "-" ++ pad4 (m + 1)) := by
      rw [List.range_succ, List.map_append]
      apply maxStr_last
      intro x hx
      rcases List.mem_map.mp hx with ⟨i, hi, rfl⟩
      dsimp only
      have hilt : i < m := List.mem_range.mp hi
      rw [strAppend_assoc, strAppend_assoc, strLt_append_left]
      exact strLt_pad4 (i + 1) (m + 1) (by omega) (by omega)
    rw [hmax]
    dsimp only
    rw [lastPart_splitDash_pad4 (titrePre ty year) (m + 1) (by omega)]
    rw [parseNat_pad4 (m + 1) (by omega)]
    rfl

/-- Sequential creation of `n ≤ 9999` titles of one type in one year yields
exactly the gapless numbers `0001 … n`, in order. -/
theorem seqTitres_eq (ty : String) (year : Nat) :
    ∀ n : Nat, n ≤ 9999 →
      seqTitres year ty n =
        (List.range n).map
          (fun i => { blankTitre ty with numeroTitre := titrePre ty year ++ "-" ++ pad4 (i + 1) }) := by
  intro n
  induction n with
  | zero => intro _; rfl
  | succ m ih =>
    intro h
    show (seqTitres year ty m) ++
        [{ blankTitre ty with
            numeroTitre := (generateNumeroTitre (seqTitres year ty m) year ty).getD "" }] = _
    rw [ih (by omega)]
    rw [generateNumeroTitre_step ty year m (by omega)]
    rw [List.range_succ, List.map_append]
    rfl

/-- C7: under sequential creation, generated dossier and title numbers for a
(type, year) pair form the strictly increasing, gapless, four-digit sequence
`0001, 0002, …`: after `n ≤ 9999` creations the tables hold exactly the
numbers `{prefix}-{0001} … {prefix}-{n}` in creation order, padded numbers
up to 9999 are four characters and compare in string order as numbers. -/
theorem sequential_numbering_gapless :
    (∀ (ty : String) (year n : Nat), n ≤ 9999 →
      seqDemandes year ty n =
        (List.range n).map (fun i => ⟨ty, dossierPre ty year ++ "-" ++ pad4 (i + 1)⟩)) ∧
    (∀ (ty : String) (year n : Nat), n ≤ 9999 →
      seqTitres year ty n =
        (List.range n).map
          (fun i => { blankTitre ty with
                        numeroTitre := titrePre ty year ++ "-" ++ pad4 (i + 1) })) ∧
    (∀ i j : Nat, i < j → j ≤ 9999 → strLt (pad4 i) (pad4 j) = true) ∧
    (∀ k : Nat, k ≤ 9999 → (pad4 k).data.length = 4) := by
  refine ⟨?_, ?_, ?_, ?_⟩
  · intro ty year n h
    exact seqDemandes_eq ty year n h
  · intro ty year n h
    exact seqTitres_eq ty year n h
  · intro i j hij hj
    exact strLt_pad4 i j hij hj
  · intro k h
    rw [pad4_eq k h]
    rfl

/-- Witness for the numbering claim: the first two requests of type
`licence_type_1` in 2025 receive `DEM-LT1-2025-0001` and `DEM-LT1-2025-0002`,
and the first two titles `LT1-2025-0001` and `LT1-2025-0002`. -/
theorem sequential_numbering_gapless_witness :
    seqDemandes 2025 "licence_type_1" 2 =
      [⟨"licence_type_1", "DEM-LT1-2025-0001"⟩, ⟨"licence_type_1", "DEM-LT1-2025-0002"⟩] ∧
    (seqTitres 2025 "licence_type_1" 2).map Titre.numeroTitre =
      ["LT1-2025-0001", "LT1-2025-0002"] := by
  constructor
  · rw [sequential_numbering_gapless.1 "licence_type_1" 2025 2 (by omega)]
    decide
  · rw [sequential_numbering_gapless.2.1 "licence_type_1" 2025 2 (by omega)]
    decide
